import Mathlib

/-!
Verification of the admin-frontend session/auth gate and cache layer.

Shallow embedding of:
* `src/lib/auth/config.ts` (route classification, callback validation)
* `src/middleware.ts` (the Route Gate)
* `src/lib/auth/token.ts` (dual token storage: localStorage + cookie)
* `src/lib/auth/cookies.ts` (cookie names and max-ages)
* `src/lib/auth/context.tsx` and `src/lib/api/auth.ts` (login / logout)
* `src/lib/api/client.ts` (JSON parsing, `ApiError` construction)
* news / pdf mutation hooks (SWR cache invalidation rules)

JavaScript semantics that matter here are made explicit:
* `String.prototype.startsWith` is modelled as `jsStartsWith` (prefix of the
  character list);
* truthiness of an optional string (`undefined`, `null` and `""` are falsy)
  is modelled as `jsTruthyStr`;
* truthiness of a number (`0` is falsy) shows up as `≠ 0` checks.
-/

/-- JS `s.startsWith(pre)`: `pre` is a prefix of `s` (character-wise). -/
def jsStartsWith (s pre : String) : Bool :=
  pre.data.isPrefixOf s.data

/-- JS truthiness of an optional string: `undefined`/`null`/`""` are falsy. -/
def jsTruthyStr : Option String → Bool
  | none => false
  | some s => s ≠ ""

theorem listIsPrefixOfAppend (l t : List Char) : l.isPrefixOf (l ++ t) = true := by
  induction l with
  | nil => simp [List.isPrefixOf]
  | cons a as ih => simp [List.isPrefixOf, ih]

theorem jsStartsWithAppend (p t : String) : jsStartsWith (p ++ t) p = true := by
  have h : (p ++ t).data = p.data ++ t.data := String.data_append p t
  simp [jsStartsWith, h, listIsPrefixOfAppend]

theorem strAppendEmpty (s : String) : s ++ "" = s := by
  cases s with
  | mk data =>
    have h : (String.mk data ++ String.mk []).data = data ++ [] := String.data_append _ _
    rw [List.append_nil] at h
    exact congrArg String.mk h

/-! ## Route configuration (`src/lib/auth/config.ts`) -/

/-- Path for the login page. -/
def LOGIN_PATH : String := "/login"

/-- Default redirect destination after successful login. -/
def DEFAULT_REDIRECT_AFTER_LOGIN : String := "/"

/-- Query parameter used to store the original URL for post-login redirect. -/
def CALLBACK_URL_PARAM : String := "callbackUrl"

/-- Routes that do NOT require authentication. -/
def PUBLIC_PATHS : List String := [LOGIN_PATH]

/-- Path prefixes that are always allowed (Next.js internals, assets, API routes). -/
def UNPROTECTED_PREFIXES : List String :=
  ["/_next", "/api/", "/favicon", "/icon", "/apple-icon", "/placeholder"]

/-- `isPublicPath` from `src/lib/auth/config.ts`. -/
def isPublicPath (pathname : String) : Bool :=
  PUBLIC_PATHS.contains pathname
    || UNPROTECTED_PREFIXES.any (fun pre => jsStartsWith pathname pre)

/-- `isLoginPath` from `src/lib/auth/config.ts`. -/
def isLoginPath (pathname : String) : Bool :=
  pathname == LOGIN_PATH

/-! ## The Route Gate (`src/middleware.ts`) -/

/-- Outcome of the middleware: pass the request through, or redirect to a
path (with an optional callback query parameter attached). -/
inductive MwDecision where
  | next
  | redirect (path : String) (callback : Option String)
deriving DecidableEq, Repr

/-- Target chosen when a logged-in user hits `/login`:
`url.pathname = callbackUrl && callbackUrl.startsWith("/") ? callbackUrl : DEFAULT_REDIRECT_AFTER_LOGIN`. -/
def resolveCallbackTarget (callbackUrl : Option String) : String :=
  match callbackUrl with
  | some c => if c ≠ "" && jsStartsWith c "/" then c else DEFAULT_REDIRECT_AFTER_LOGIN
  | none => DEFAULT_REDIRECT_AFTER_LOGIN

/-- The `middleware` function of `src/middleware.ts`.

Inputs: the request pathname, the value of the `admin_auth_token` cookie
(`none` when the cookie is not attached), and the `callbackUrl` search
parameter. `request.cookies.get(AUTH_COOKIE_NAME)?.value` then a JS truthiness
test means an empty-valued cookie behaves like an absent one. -/
def middleware (pathname : String) (cookie : Option String)
    (callbackParam : Option String) : MwDecision :=
  if isPublicPath pathname then
    if jsTruthyStr cookie && isLoginPath pathname then
      MwDecision.redirect (resolveCallbackTarget callbackParam) none
    else
      MwDecision.next
  else
    if !(jsTruthyStr cookie) then
      MwDecision.redirect LOGIN_PATH (some pathname)
    else
      MwDecision.next

/-! ## Admin user (`src/lib/types/auth.ts`) -/

/-- The `Admin` entity returned by the API. -/
structure Admin where
  id : Int
  firstName : String
  lastName : String
  email : String
  profilePicture : Option String
deriving DecidableEq, Repr

/-- Model of `JSON.stringify` on an `Admin` record (used by `setStoredUser`).
The exact text is irrelevant to every claim; only that something is written. -/
def serializeAdmin (a : Admin) : String :=
  "\x7b\"id\":" ++ toString a.id
    ++ ",\"firstName\":\"" ++ a.firstName
    ++ "\",\"lastName\":\"" ++ a.lastName
    ++ "\",\"email\":\"" ++ a.email
    ++ "\",\"profilePicture\":"
    ++ (match a.profilePicture with
        | some p => "\"" ++ p ++ "\""
        | none => "null")
    ++ "\x7d"

/-! ## Browser storage model

`localStorage` is an association of string keys to string values; the cookie
jar associates a cookie name to its (value, max-age) pair. Writes replace any
previous entry for the key; `document.cookie = "name=; max-age=0"` makes the
browser drop the cookie, modelled as removal. `encodeURIComponent` is a
bijective transport encoding and is modelled as the identity (no claim reads
the encoded value back). -/

def storeGet (entries : List (String × String)) (k : String) : Option String :=
  (entries.find? (fun e => e.1 == k)).map (fun e => e.2)

def storeSet (entries : List (String × String)) (k v : String) :
    List (String × String) :=
  (k, v) :: entries.filter (fun e => !(e.1 == k))

def storeRemove (entries : List (String × String)) (k : String) :
    List (String × String) :=
  entries.filter (fun e => !(e.1 == k))

def jarGet (jar : List (String × String × Nat)) (name : String) :
    Option (String × Nat) :=
  (jar.find? (fun e => e.1 == name)).map (fun e => e.2)

def jarSet (jar : List (String × String × Nat)) (name value : String)
    (maxAge : Nat) : List (String × String × Nat) :=
  (name, value, maxAge) :: jar.filter (fun e => !(e.1 == name))

def jarClear (jar : List (String × String × Nat)) (name : String) :
    List (String × String × Nat) :=
  jar.filter (fun e => !(e.1 == name))

/-- Client-side world: browser flag (`typeof window !== "undefined"`),
localStorage, cookie jar, the Auth Context's in-memory user, and the current
route (what `router.replace` last navigated to). -/
structure World where
  browser : Bool
  localStorage : List (String × String)
  cookies : List (String × String × Nat)
  user : Option Admin
  route : String
deriving DecidableEq, Repr

/-! ## Cookie configuration (`src/lib/auth/cookies.ts`) -/

/-- Cookie name for the authentication token. -/
def AUTH_COOKIE_NAME : String := "admin_auth_token"

/-- Cookie max-age for "remember me" sessions (7 days in seconds). -/
def AUTH_COOKIE_MAX_AGE : Nat := 60 * 60 * 24 * 7

/-- Cookie max-age for session-only tokens (24 hours in seconds). -/
def SESSION_COOKIE_MAX_AGE : Nat := 60 * 60 * 24

/-! ## Token storage (`src/lib/auth/token.ts`) -/

/-- localStorage key for the token. -/
def TOKEN_KEY : String := "admin_auth_token"

/-- localStorage key for the cached user. -/
def USER_KEY : String := "admin_user"

/-- `getToken`: reads localStorage only; `null` outside a browser. -/
def getToken (w : World) : Option String :=
  if w.browser then storeGet w.localStorage TOKEN_KEY else none

/-- `setToken(token, remember?)`: writes localStorage, then syncs the cookie
with a max-age of 7 days when `remember` is true, else 24 hours.
`remember` is an optional boolean; `undefined` behaves like `false`. -/
def setToken (w : World) (token : String) (remember : Option Bool) : World :=
  if w.browser then
    { w with
      localStorage := storeSet w.localStorage TOKEN_KEY token
      cookies := jarSet w.cookies AUTH_COOKIE_NAME token
        (match remember with
         | some true => AUTH_COOKIE_MAX_AGE
         | _ => SESSION_COOKIE_MAX_AGE) }
  else w

/-- `removeToken`: clears the localStorage entry and the cookie. -/
def removeToken (w : World) : World :=
  if w.browser then
    { w with
      localStorage := storeRemove w.localStorage TOKEN_KEY
      cookies := jarClear w.cookies AUTH_COOKIE_NAME }
  else w

/-- `hasToken`: `getToken() !== null`. -/
def hasToken (w : World) : Bool :=
  (getToken w).isSome

/-- `getStoredUser`, parameterized by the platform JSON parser
(`JSON.parse` composed with the `Admin` cast): `parse raw = none` models a
thrown `SyntaxError`, caught by the `try`/`catch` and turned into `null`. -/
def getStoredUser (parse : String → Option Admin) (w : World) : Option Admin :=
  if w.browser then
    match storeGet w.localStorage USER_KEY with
    | none => none
    | some raw => if raw = "" then none else parse raw
  else none

/-- `setStoredUser`: stores the serialized user, or removes the entry when
called with `null`. -/
def setStoredUser (w : World) (user : Option Admin) : World :=
  if w.browser then
    match user with
    | none => { w with localStorage := storeRemove w.localStorage USER_KEY }
    | some u =>
        { w with localStorage := storeSet w.localStorage USER_KEY (serializeAdmin u) }
  else w

/-! ## Login / logout (`src/lib/api/auth.ts` and `src/lib/auth/context.tsx`) -/

/-- Runtime shape of the `data` part of a login response. The backend may
omit any field (the code checks each with optional chaining); error bodies
can carry a `message` instead. -/
structure LoginRespData where
  admin : Option Admin
  token : Option String
  message : Option String
deriving DecidableEq, Repr

/-- Runtime shape of a login response body. -/
structure LoginResponse where
  success : Bool
  data : Option LoginRespData
deriving DecidableEq, Repr

/-- `response.data?.token` -/
def respToken (resp : LoginResponse) : Option String :=
  resp.data.bind LoginRespData.token

/-- `response.data?.admin` -/
def respAdmin (resp : LoginResponse) : Option Admin :=
  resp.data.bind LoginRespData.admin

/-- The `login` of `src/lib/api/auth.ts`: after the transport call resolves
with `response`, the token is persisted when `response.success &&
response.data?.token` is truthy, then the response is returned unchanged. -/
def apiLogin (resp : LoginResponse) (remember : Option Bool) (w : World) : World :=
  if resp.success && jsTruthyStr (respToken resp) then
    setToken w ((respToken resp).getD "") remember
  else w

/-- Condition under which the transport layer persists the token. -/
def tokenStoredByApi (resp : LoginResponse) : Bool :=
  resp.success && jsTruthyStr (respToken resp)

/-- The structural validation of `src/lib/auth/context.tsx` `login`:
`!response?.success || !response?.data?.token || !response?.data?.admin`
negated. -/
def loginValid (resp : LoginResponse) : Bool :=
  resp.success && jsTruthyStr (respToken resp) && (respAdmin resp).isSome

/-- Error message chosen when validation fails:
`response?.data && "message" in response.data ? String(message) : default`. -/
def loginErrMsg (resp : LoginResponse) : String :=
  match resp.data with
  | some d =>
      match d.message with
      | some m => m
      | none => "Login failed. Please try again."
  | none => "Login failed. Please try again."

/-- Redirect destination of the context's `login`:
`options?.redirectTo && options.redirectTo.startsWith("/") ? options.redirectTo
: DEFAULT_REDIRECT_AFTER_LOGIN`. -/
def loginRedirectTarget (redirectTo : Option String) : String :=
  match redirectTo with
  | some r => if r ≠ "" && jsStartsWith r "/" then r else DEFAULT_REDIRECT_AFTER_LOGIN
  | none => DEFAULT_REDIRECT_AFTER_LOGIN

/-- The Auth Context's `login`: runs the transport login (which may already
persist the token), validates the response structure, and either throws an
`ApiError` (returned as `some message`) or commits user state and redirects.
The returned world is the state after the call, whether it failed or not. -/
def loginCtx (resp : LoginResponse) (remember : Option Bool)
    (redirectTo : Option String) (w : World) : World × Option String :=
  let w1 := apiLogin resp remember w
  if loginValid resp then
    match respAdmin resp with
    | some a =>
        let w2 := { w1 with user := some a }
        let w3 := setStoredUser w2 (some a)
        ({ w3 with route := loginRedirectTarget redirectTo }, none)
    | none => (w1, some (loginErrMsg resp))
  else (w1, some (loginErrMsg resp))

/-- The `logout` of `src/lib/api/auth.ts`: the backend call either resolves
or throws (`netFails`); the error is caught and ignored, and the `finally`
block always runs `removeToken`. The function itself never throws. -/
def apiLogout (netFails : Bool) (w : World) : World :=
  let _ := netFails
  removeToken w

/-- The Auth Context's `logout`: awaits the transport logout (whose failures
are swallowed), then in its own `finally` clears the token again, drops the
in-memory and stored user, and navigates to `"/login"`. -/
def logoutCtx (netFails : Bool) (w : World) : World :=
  let w1 := apiLogout netFails w
  let w2 := removeToken w1
  let w3 := { w2 with user := none }
  let w4 := setStoredUser w3 none
  { w4 with route := "/login" }

/-- The Auth Context's `checkAuth`: `if (!token)` clear the in-memory user,
otherwise restore it from storage. JS truthiness applies: an empty-string
token stored in localStorage counts as absent. -/
def checkAuth (parse : String → Option Admin) (w : World) : World :=
  if !(jsTruthyStr (getToken w)) then
    { w with user := none }
  else
    { w with user := getStoredUser parse w }

/-! ## API Client (`src/lib/api/client.ts`) -/

/-- JSON values, as produced by `JSON.parse`. -/
inductive Json where
  | null
  | bool (b : Bool)
  | num (n : Int)
  | str (s : String)
  | arr (xs : List Json)
  | obj (fields : List (String × Json))

/-- JS truthiness of a JSON value (`NaN` aside, which `JSON.parse` never
produces). Objects and arrays are always truthy. -/
def jtruthy : Json → Bool
  | Json.null => false
  | Json.bool b => b
  | Json.num n => n ≠ 0
  | Json.str s => s ≠ ""
  | Json.arr _ => true
  | Json.obj _ => true

/-- Property lookup on a JSON object (`"message" in data` plus the access). -/
def jlookup (fields : List (String × Json)) (k : String) : Option Json :=
  (fields.find? (fun e => e.1 == k)).map (fun e => e.2)

/-- The typed error of `src/lib/api/client.ts`. At runtime the `message`
slot holds whatever value the truthy chain produced, hence `Json` here. -/
structure ApiErrorModel where
  message : Json
  status : Nat
  data : Option Json

/-- `parseJsonSafe`, parameterized by the platform JSON parser: an empty
body yields `undefined`; a parser failure (thrown `SyntaxError`) is caught
and yields `undefined`. -/
def parseJsonSafe (parse : String → Option Json) (text : String) : Option Json :=
  if text = "" then none else parse text

/-- `res.ok` per the Fetch specification: status in 200..299. -/
def resOk (status : Nat) : Bool :=
  200 ≤ status && status < 300

/-- The error message chosen by `apiFetch` on a non-2xx response:
`(data && typeof data === "object" && "message" in data && data.message) ||
"Request failed with status N"`. -/
def apiErrMessage (data : Option Json) (status : Nat) : Json :=
  let generic := Json.str ("Request failed with status " ++ toString status)
  match data with
  | some (Json.obj fields) =>
      match jlookup fields "message" with
      | some v => if jtruthy v then v else generic
      | none => generic
  | _ => generic

/-- JS nullish coalescing `data ?? {}`: both `undefined` (no parse result)
and a parsed JSON `null` body yield the empty object. -/
def nullishCoalesceObj (data : Option Json) : Json :=
  match data with
  | none => Json.obj []
  | some Json.null => Json.obj []
  | some j => j

/-- Response handling of `apiFetch` after the transport resolves with
`status` and raw body `text`: always parse (safely), then either throw
`ApiError` (non-2xx) or return `data ?? {}`. -/
def apiFetchResult (status : Nat) (text : String)
    (parse : String → Option Json) : Except ApiErrorModel Json :=
  let data := parseJsonSafe parse text
  if resOk status then
    Except.ok (nullishCoalesceObj data)
  else
    Except.error ⟨apiErrMessage data status, status, data⟩

/-! ## Cache-coherent data hooks (the news and pdf hook modules)

The SWR cache is modelled as an association of string keys to a freshness
flag (`true` = fresh value present). `globalMutate(key, undefined,
{revalidate})` clears the entry's data — with or without an immediate
refetch — so both forms mark the entry not-fresh here; a key filter form
applies the same to every matching key. -/

/-- List-query parameters (`page`, `limit`, `search`); each is pushed into
the cache key only when truthy (`0` and `""` are falsy). -/
structure ListParams where
  page : Option Nat
  limit : Option Nat
  search : Option String
deriving DecidableEq, Repr

/-- `parts.join("-")`. -/
def joinDash : List String → String
  | [] => ""
  | [x] => x
  | x :: xs => x ++ "-" ++ joinDash xs

/-- The conditional `parts.push(...)` calls shared by `getNewsListKey` and
`getPdfListKey`. -/
def listKeyParts (params : Option ListParams) : List String :=
  (match params.bind ListParams.page with
   | some p => if p ≠ 0 then ["page=" ++ toString p] else []
   | none => [])
  ++ (match params.bind ListParams.limit with
      | some l => if l ≠ 0 then ["limit=" ++ toString l] else []
      | none => [])
  ++ (match params.bind ListParams.search with
      | some s => if s ≠ "" then ["search=" ++ s] else []
      | none => [])

/-- `getNewsListKey` from the news hooks. -/
def getNewsListKey (params : Option ListParams) : String :=
  joinDash ("news-list" :: listKeyParts params)

/-- `getPdfListKey` from the pdf hooks. -/
def getPdfListKey (params : Option ListParams) : String :=
  joinDash ("pdf-list" :: listKeyParts params)

/-- The SWR cache: key, freshness flag. -/
abbrev Cache := List (String × Bool)

/-- The key filter used by every news mutation:
`(key) => typeof key === "string" && key.startsWith("news-list")`. -/
def newsListKeyFilter (k : String) : Bool :=
  jsStartsWith k "news-list"

/-- The key filter used by every pdf mutation. -/
def pdfListKeyFilter (k : String) : Bool :=
  jsStartsWith k "pdf-list"

/-- `globalMutate(filter, undefined, {revalidate: true})`: every matching
entry loses its cached value and will refetch on next read. -/
def invalidateWhere (pred : String → Bool) (c : Cache) : Cache :=
  c.map (fun kv => if pred kv.1 then (kv.1, false) else kv)

/-- `globalMutate(key, undefined, {revalidate: _})` on a single key. -/
def invalidateKey (key : String) (c : Cache) : Cache :=
  c.map (fun kv => if kv.1 == key then (kv.1, false) else kv)

/-- Success path of `useCreateNews().createNews`. -/
def createNewsOnSuccess (c : Cache) : Cache :=
  invalidateWhere newsListKeyFilter c

/-- Success path of `useUpdateNews().updateNews id`. -/
def updateNewsOnSuccess (id : String) (c : Cache) : Cache :=
  invalidateWhere newsListKeyFilter (invalidateKey ("news-single-" ++ id) c)

/-- Success path of `useDeleteNews().deleteNews id` (the single key is
cleared with `revalidate: false`). -/
def deleteNewsOnSuccess (id : String) (c : Cache) : Cache :=
  invalidateWhere newsListKeyFilter (invalidateKey ("news-single-" ++ id) c)

/-- Success path of `useCreatePdf().createPdf`. -/
def createPdfOnSuccess (c : Cache) : Cache :=
  invalidateWhere pdfListKeyFilter c

/-- Success path of `useUpdatePdf().updatePdf id`. -/
def updatePdfOnSuccess (id : String) (c : Cache) : Cache :=
  invalidateWhere pdfListKeyFilter (invalidateKey ("pdf-single-" ++ id) c)

/-- Success path of `useDeletePdf().deletePdf id`. -/
def deletePdfOnSuccess (id : String) (c : Cache) : Cache :=
  invalidateWhere pdfListKeyFilter (invalidateKey ("pdf-single-" ++ id) c)

/-- Success path of `useUpdatePdfStatus().updateStatus`. -/
def updatePdfStatusOnSuccess (c : Cache) : Cache :=
  invalidateWhere pdfListKeyFilter c

/-! ## Helper lemmas -/

theorem memInvalidateWhereTrue (pred : String → Bool) (c : Cache) (k : String)
    (f : Bool) (hmem : (k, f) ∈ invalidateWhere pred c) (hp : pred k = true) :
    f = false := by
  rcases List.mem_map.mp hmem with ⟨kv, hin, heq⟩
  by_cases hkv : pred kv.1 = true
  · rw [if_pos hkv] at heq
    exact (((Prod.mk.injEq _ _ _ _).mp heq).2).symm
  · rw [if_neg hkv] at heq
    subst heq
    exact absurd hp hkv

theorem memInvalidateWhereOfFilterFalse (pred : String → Bool) (c : Cache)
    (k : String) (f : Bool) (hp : pred k = false) :
    (k, f) ∈ invalidateWhere pred c ↔ (k, f) ∈ c := by
  constructor
  · intro hmem
    rcases List.mem_map.mp hmem with ⟨kv, hin, heq⟩
    by_cases hkv : pred kv.1 = true
    · rw [if_pos hkv] at heq
      have hk : kv.1 = k := ((Prod.mk.injEq _ _ _ _).mp heq).1
      rw [hk, hp] at hkv
      cases hkv
    · rw [if_neg hkv] at heq
      subst heq
      exact hin
  · intro hmem
    refine List.mem_map.mpr ⟨(k, f), hmem, ?_⟩
    rw [if_neg]
    intro hcon
    rw [hp] at hcon
    cases hcon

theorem memInvalidateKeyOfNe (key : String) (c : Cache) (k : String)
    (f : Bool) (hne : k ≠ key) :
    (k, f) ∈ invalidateKey key c ↔ (k, f) ∈ c := by
  constructor
  · intro hmem
    rcases List.mem_map.mp hmem with ⟨kv, hin, heq⟩
    by_cases hkv : (kv.1 == key) = true
    · rw [if_pos hkv] at heq
      have hk : kv.1 = k := ((Prod.mk.injEq _ _ _ _).mp heq).1
      exact absurd (hk ▸ (eq_of_beq hkv)) hne
    · rw [if_neg hkv] at heq
      subst heq
      exact hin
  · intro hmem
    refine List.mem_map.mpr ⟨(k, f), hmem, ?_⟩
    rw [if_neg]
    intro hcon
    exact hne (eq_of_beq hcon)

theorem memInvalidateKeySelf (key : String) (c : Cache) (f : Bool)
    (hmem : (key, f) ∈ invalidateKey key c) : f = false := by
  rcases List.mem_map.mp hmem with ⟨kv, hin, heq⟩
  by_cases hkv : (kv.1 == key) = true
  · rw [if_pos hkv] at heq
    exact (((Prod.mk.injEq _ _ _ _).mp heq).2).symm
  · rw [if_neg hkv] at heq
    subst heq
    exact absurd (beq_self_eq_true key) hkv

theorem memSingleAfterMutation (pred : String → Bool) (key : String)
    (c : Cache) (f : Bool)
    (hmem : (key, f) ∈ invalidateWhere pred (invalidateKey key c)) :
    f = false := by
  by_cases hp : pred key = true
  · exact memInvalidateWhereTrue pred _ key f hmem hp
  · rw [Bool.not_eq_true] at hp
    exact memInvalidateKeySelf key c f
      ((memInvalidateWhereOfFilterFalse pred _ key f hp).mp hmem)

theorem joinDashCons (x : String) (xs : List String) :
    ∃ t, joinDash (x :: xs) = x ++ t := by
  cases xs with
  | nil => exact ⟨"", (strAppendEmpty x).symm⟩
  | cons y ys => exact ⟨"-" ++ joinDash (y :: ys), by simp [joinDash, String.append_assoc]⟩

theorem newsListKeyHasListFilter (params : Option ListParams) :
    newsListKeyFilter (getNewsListKey params) = true := by
  rcases joinDashCons "news-list" (listKeyParts params) with ⟨t, ht⟩
  rw [newsListKeyFilter, getNewsListKey, ht]
  exact jsStartsWithAppend _ t

theorem pdfListKeyHasListFilter (params : Option ListParams) :
    pdfListKeyFilter (getPdfListKey params) = true := by
  rcases joinDashCons "pdf-list" (listKeyParts params) with ⟨t, ht⟩
  rw [pdfListKeyFilter, getPdfListKey, ht]
  exact jsStartsWithAppend _ t

theorem newsSingleKeyNotListKey (s : String) :
    newsListKeyFilter ("news-single-" ++ s) = false := by
  have h : ("news-single-" ++ s).data = "news-single-".data ++ s.data :=
    String.data_append _ _
  simp [newsListKeyFilter, jsStartsWith, h, List.isPrefixOf]

theorem pdfSingleKeyNotListKey (s : String) :
    pdfListKeyFilter ("pdf-single-" ++ s) = false := by
  have h : ("pdf-single-" ++ s).data = "pdf-single-".data ++ s.data :=
    String.data_append _ _
  simp [pdfListKeyFilter, jsStartsWith, h, List.isPrefixOf]

theorem strAppendLeftCancel (p a b : String) (h : p ++ a = p ++ b) : a = b := by
  have hd : (p ++ a).data = (p ++ b).data := congrArg String.data h
  rw [String.data_append, String.data_append] at hd
  have hab : a.data = b.data := List.append_cancel_left hd
  cases a with
  | mk da =>
    cases b with
    | mk db => exact congrArg String.mk hab

/-! ## Claim C1 — the Route Gate decision -/

/-- C1 counterexample. The claim says a *present* auth cookie grants access
to protected paths and redirects away from login. The code applies JS
truthiness: a cookie present with value `""` is treated as absent, so
`/news` with an empty-valued cookie is redirected to login, and `/login`
with an empty-valued cookie renders login. Moreover, with a valid cookie and
`callbackUrl=/login`, the "redirect away from login" targets `/login`
itself. -/
theorem routeGateClaimCounterexample :
    middleware "/news" (some "") none
      = MwDecision.redirect LOGIN_PATH (some "/news") ∧
    middleware "/news" (some "") none ≠ MwDecision.next ∧
    middleware LOGIN_PATH (some "") none = MwDecision.next ∧
    middleware LOGIN_PATH (some "tok") (some "/login")
      = MwDecision.redirect "/login" none := by
  refine ⟨by decide, by decide, by decide, by decide⟩

/-- C1 (amended): the Route Gate decides purely from request path, auth
cookie and callback parameter. For every protected (non-public) path: if the
auth cookie is absent *or empty-valued* it redirects to the login path with
the original path as the callback parameter, and if the cookie is present
with a nonempty value it allows the request. For the login path: a nonempty
cookie yields a redirect to the validated callback target (which is away
from login unless the callback itself names the login path); an absent or
empty cookie lets login render. -/
theorem routeGateDecision (p : String) (cookie : Option String)
    (cb : Option String) :
    (isPublicPath p = false →
      (jsTruthyStr cookie = false →
        middleware p cookie cb = MwDecision.redirect LOGIN_PATH (some p)) ∧
      (jsTruthyStr cookie = true →
        middleware p cookie cb = MwDecision.next)) ∧
    (p = LOGIN_PATH →
      (jsTruthyStr cookie = true →
        middleware p cookie cb
          = MwDecision.redirect (resolveCallbackTarget cb) none) ∧
      (jsTruthyStr cookie = false →
        middleware p cookie cb = MwDecision.next)) := by
  constructor
  · intro hpub
    constructor
    · intro hc
      simp [middleware, hpub, hc]
    · intro hc
      simp [middleware, hpub, hc]
  · intro hp
    subst hp
    have hpub : isPublicPath LOGIN_PATH = true := by decide
    have hlog : isLoginPath LOGIN_PATH = true := by decide
    constructor
    · intro hc
      simp [middleware, hpub, hlog, hc]
    · intro hc
      simp [middleware, hpub, hc]

/-- C1 witness: a protected path with a nonempty cookie passes, by
`routeGateDecision` evaluated at `/news`. -/
theorem routeGateDecisionWitness :
    isPublicPath "/news" = false ∧ jsTruthyStr (some "tok") = true ∧
    middleware "/news" (some "tok") none = MwDecision.next :=
  ⟨by decide, by decide,
    ((routeGateDecision "/news" (some "tok") none).1 (by decide)).2 (by decide)⟩

/-! ## Claim C4 — callback target validation -/

/-- C4: for every value `v` of the callback parameter, the post-login target
chosen by the Route Gate (`resolveCallbackTarget`) and by the Auth Context
(`loginRedirectTarget`) equals `v` exactly when `v` starts with `/`; every
other value is discarded in favor of the default landing path `/`, as is an
absent parameter — so the target is always `v`-starting-with-`/` or `/`
itself. -/
theorem callbackRedirectSameOrigin (v : String) :
    (resolveCallbackTarget (some v) = v ↔ jsStartsWith v "/" = true) ∧
    (loginRedirectTarget (some v) = v ↔ jsStartsWith v "/" = true) ∧
    (jsStartsWith v "/" = false →
      resolveCallbackTarget (some v) = DEFAULT_REDIRECT_AFTER_LOGIN ∧
      loginRedirectTarget (some v) = DEFAULT_REDIRECT_AFTER_LOGIN) ∧
    resolveCallbackTarget none = DEFAULT_REDIRECT_AFTER_LOGIN ∧
    loginRedirectTarget none = DEFAULT_REDIRECT_AFTER_LOGIN ∧
    DEFAULT_REDIRECT_AFTER_LOGIN = "/" := by
  by_cases hv : v = ""
  · subst hv
    refine ⟨by decide, by decide, ?_, rfl, rfl, rfl⟩
    intro _
    exact ⟨by decide, by decide⟩
  · by_cases hs : jsStartsWith v "/" = true
    · refine ⟨?_, ?_, ?_, rfl, rfl, rfl⟩
      · simp [resolveCallbackTarget, hv, hs]
      · simp [loginRedirectTarget, hv, hs]
      · intro hcon
        rw [hs] at hcon
        cases hcon
    · rw [Bool.not_eq_true] at hs
      have hslash : ("/" : String) ≠ v := by
        intro h
        rw [← h] at hs
        exact (by decide : jsStartsWith "/" "/" ≠ false) hs
      refine ⟨?_, ?_, ?_, rfl, rfl, rfl⟩
      · simp [resolveCallbackTarget, hv, hs, DEFAULT_REDIRECT_AFTER_LOGIN, hslash]
      · simp [loginRedirectTarget, hv, hs, DEFAULT_REDIRECT_AFTER_LOGIN, hslash]
      · intro _
        exact ⟨by simp [resolveCallbackTarget, hv, hs],
          by simp [loginRedirectTarget, hv, hs]⟩

/-- C4 witness: `resolveCallbackTarget` keeps `/news` and both resolvers
discard `https://evil.example` in favor of the default landing path, by
`callbackRedirectSameOrigin`. -/
theorem callbackRedirectSameOriginWitness :
    jsStartsWith "/news" "/" = true ∧
    resolveCallbackTarget (some "/news") = "/news" ∧
    jsStartsWith "https://evil.example" "/" = false ∧
    resolveCallbackTarget (some "https://evil.example")
      = DEFAULT_REDIRECT_AFTER_LOGIN ∧
    loginRedirectTarget (some "https://evil.example")
      = DEFAULT_REDIRECT_AFTER_LOGIN :=
  ⟨by decide,
    (callbackRedirectSameOrigin "/news").1.mpr (by decide),
    by decide,
    ((callbackRedirectSameOrigin "https://evil.example").2.2.1 (by decide)).1,
    ((callbackRedirectSameOrigin "https://evil.example").2.2.1 (by decide)).2⟩

/-! ## Storage lemmas -/

theorem filterIdem (p : α → Bool) (l : List α) :
    (l.filter p).filter p = l.filter p := by
  simp [List.filter_filter]

theorem storeGetSet (es : List (String × String)) (k v : String) :
    storeGet (storeSet es k v) k = some v := by
  simp [storeGet, storeSet, List.find?]

theorem jarGetSet (jar : List (String × String × Nat)) (name v : String)
    (a : Nat) : jarGet (jarSet jar name v a) name = some (v, a) := by
  simp [jarGet, jarSet, List.find?]

theorem storeGetRemove (es : List (String × String)) (k : String) :
    storeGet (storeRemove es k) k = none := by
  simp only [storeGet, storeRemove, Option.map_eq_none']
  rw [List.find?_eq_none]
  intro e he
  have := (List.mem_filter.mp he).2
  simp at this
  simp [this]

theorem jarGetClear (jar : List (String × String × Nat)) (name : String) :
    jarGet (jarClear jar name) name = none := by
  simp only [jarGet, jarClear, Option.map_eq_none']
  rw [List.find?_eq_none]
  intro e he
  have := (List.mem_filter.mp he).2
  simp at this
  simp [this]

theorem storeRemoveNoop (es : List (String × String)) (k : String)
    (h : storeGet es k = none) : storeRemove es k = es := by
  rw [storeRemove, List.filter_eq_self]
  intro e he
  simp only [storeGet, Option.map_eq_none'] at h
  have := List.find?_eq_none.mp h e he
  simp at this
  simp [this]

theorem jarClearNoop (jar : List (String × String × Nat)) (name : String)
    (h : jarGet jar name = none) : jarClear jar name = jar := by
  rw [jarClear, List.filter_eq_self]
  intro e he
  simp only [jarGet, Option.map_eq_none'] at h
  have := List.find?_eq_none.mp h e he
  simp at this
  simp [this]

/-! ## Claim C5 — token write policy -/

/-- C5: `setToken(t, remember=true)` writes the auth cookie with max-age
exactly 7 days (604800 s); `remember=false` or omitted writes exactly
24 hours (86400 s); in every case `getToken()` afterwards returns `t` from
durable storage. -/
theorem setTokenCookieMaxAge (w : World) (t : String) (hb : w.browser = true) :
    jarGet (setToken w t (some true)).cookies AUTH_COOKIE_NAME
      = some (t, AUTH_COOKIE_MAX_AGE) ∧
    jarGet (setToken w t (some false)).cookies AUTH_COOKIE_NAME
      = some (t, SESSION_COOKIE_MAX_AGE) ∧
    jarGet (setToken w t none).cookies AUTH_COOKIE_NAME
      = some (t, SESSION_COOKIE_MAX_AGE) ∧
    AUTH_COOKIE_MAX_AGE = 604800 ∧
    SESSION_COOKIE_MAX_AGE = 86400 ∧
    (∀ remember : Option Bool, getToken (setToken w t remember) = some t) := by
  refine ⟨?_, ?_, ?_, by decide, by decide, ?_⟩
  · simp [setToken, hb, jarGetSet]
  · simp [setToken, hb, jarGetSet]
  · simp [setToken, hb, jarGetSet]
  · intro remember
    simp [getToken, setToken, hb, storeGetSet]

/-- C5 witness: evaluated in a fresh browser world. -/
theorem setTokenCookieMaxAgeWitness :
    (World.mk true [] [] none "/").browser = true ∧
    jarGet (setToken (World.mk true [] [] none "/") "tok" (some true)).cookies
        AUTH_COOKIE_NAME = some ("tok", AUTH_COOKIE_MAX_AGE) ∧
    getToken (setToken (World.mk true [] [] none "/") "tok" none) = some "tok" :=
  ⟨rfl,
    (setTokenCookieMaxAge (World.mk true [] [] none "/") "tok" rfl).1,
    (setTokenCookieMaxAge (World.mk true [] [] none "/") "tok" rfl).2.2.2.2.2 none⟩

/-! ## Claim C9 — removeToken idempotence -/

/-- C9: `removeToken` is idempotent — from any starting state, running it
twice equals running it once; after one call (in a browser) both the durable
entry and the cookie are empty; when no token exists in either location it
is a no-op (and, being a total function, it never raises). -/
theorem removeTokenIdem (w : World) :
    removeToken (removeToken w) = removeToken w ∧
    (w.browser = true →
      getToken (removeToken w) = none ∧
      jarGet (removeToken w).cookies AUTH_COOKIE_NAME = none) ∧
    (getToken w = none ∧ jarGet w.cookies AUTH_COOKIE_NAME = none →
      removeToken w = w) := by
  refine ⟨?_, ?_, ?_⟩
  · by_cases hb : w.browser = true
    · simp [removeToken, hb, storeRemove, jarClear, filterIdem]
    · rw [Bool.not_eq_true] at hb
      simp [removeToken, hb]
  · intro hb
    constructor
    · simp [getToken, removeToken, hb, storeGetRemove]
    · simp [removeToken, hb, jarGetClear]
  · rintro ⟨hstore, hjar⟩
    by_cases hb : w.browser = true
    · rw [getToken, if_pos hb] at hstore
      rw [removeToken, if_pos hb, storeRemoveNoop _ _ hstore, jarClearNoop _ _ hjar]
    · rw [Bool.not_eq_true] at hb
      simp [removeToken, hb]

/-- C9 witness: idempotence and the no-op case evaluated on a world whose
storage never held a token. -/
theorem removeTokenIdemWitness :
    removeToken (removeToken (World.mk true [("x", "1")] [] none "/"))
      = removeToken (World.mk true [("x", "1")] [] none "/") ∧
    (getToken (World.mk true [("x", "1")] [] none "/") = none ∧
      jarGet (World.mk true [("x", "1")] [] none "/").cookies AUTH_COOKIE_NAME
        = none) ∧
    removeToken (World.mk true [("x", "1")] [] none "/")
      = World.mk true [("x", "1")] [] none "/" :=
  ⟨(removeTokenIdem (World.mk true [("x", "1")] [] none "/")).1,
    ⟨by decide, by decide⟩,
    (removeTokenIdem (World.mk true [("x", "1")] [] none "/")).2.2
      ⟨by decide, by decide⟩⟩

/-! ## Claim C10 — stored-user restore is total -/

/-- C10: `getStoredUser` is total and never throws: it returns the parsed
`Admin` when the stored entry parses, and `none` when the entry is absent or
malformed (the platform parser throwing is modelled by `parse raw = none`);
hence `checkAuth`'s user restore cannot crash — it yields `none` when the
token is absent or falsy (JS `!token` is also true of an empty-string
token) and `getStoredUser`'s value when the token is truthy. -/
theorem getStoredUserTotal (parse : String → Option Admin) (w : World)
    (hb : w.browser = true) (hparse : parse "" = none) :
    (∀ raw a, storeGet w.localStorage USER_KEY = some raw →
      parse raw = some a → getStoredUser parse w = some a) ∧
    (storeGet w.localStorage USER_KEY = none → getStoredUser parse w = none) ∧
    (∀ raw, storeGet w.localStorage USER_KEY = some raw →
      parse raw = none → getStoredUser parse w = none) ∧
    (jsTruthyStr (getToken w) = false → (checkAuth parse w).user = none) ∧
    (jsTruthyStr (getToken w) = true →
      (checkAuth parse w).user = getStoredUser parse w) := by
  refine ⟨?_, ?_, ?_, ?_, ?_⟩
  · intro raw a hsome hp
    by_cases hr : raw = ""
    · subst hr
      rw [hparse] at hp
      cases hp
    · simp [getStoredUser, hb, hsome, hr, hp]
  · intro hnone
    simp [getStoredUser, hb, hnone]
  · intro raw hsome hp
    by_cases hr : raw = ""
    · simp [getStoredUser, hb, hsome, hr]
    · simp [getStoredUser, hb, hsome, hr, hp]
  · intro hfalsy
    simp [checkAuth, hfalsy]
  · intro htruthy
    simp [checkAuth, htruthy]

/-- C10 witness: a corrupted stored entry restores to `none`, a valid one to
the parsed admin, by `getStoredUserTotal` with a concrete parser. -/
theorem getStoredUserTotalWitness :
    getStoredUser
      (fun s => if s = "good" then some (Admin.mk 1 "A" "B" "a@b" none) else none)
      (World.mk true [("admin_user", "corrupt")] [] none "/") = none ∧
    getStoredUser
      (fun s => if s = "good" then some (Admin.mk 1 "A" "B" "a@b" none) else none)
      (World.mk true [("admin_user", "good")] [] none "/")
      = some (Admin.mk 1 "A" "B" "a@b" none) :=
  ⟨(getStoredUserTotal
      (fun s => if s = "good" then some (Admin.mk 1 "A" "B" "a@b" none) else none)
      (World.mk true [("admin_user", "corrupt")] [] none "/") rfl (by decide)).2.2.1
      "corrupt" (by decide) (by decide),
    (getStoredUserTotal
      (fun s => if s = "good" then some (Admin.mk 1 "A" "B" "a@b" none) else none)
      (World.mk true [("admin_user", "good")] [] none "/") rfl (by decide)).1
      "good" (Admin.mk 1 "A" "B" "a@b" none) (by decide) (by decide)⟩

/-! ## Claim C2 — mutations invalidate every list key -/

/-- C2: every successful mutation (create / update / delete for news and
pdfs, and the pdf status toggle) invalidates every cache entry whose key
starts with the resource's list-key prefix; and every key the list hooks can
generate — for any page/limit/search parameters — starts with that prefix,
so the next read of any list key refetches. -/
theorem mutationInvalidatesAllListKeys (c : Cache) (k i : String) (f : Bool)
    (nparams pparams : Option ListParams) :
    newsListKeyFilter (getNewsListKey nparams) = true ∧
    pdfListKeyFilter (getPdfListKey pparams) = true ∧
    (newsListKeyFilter k = true →
      ((k, f) ∈ createNewsOnSuccess c → f = false) ∧
      ((k, f) ∈ updateNewsOnSuccess i c → f = false) ∧
      ((k, f) ∈ deleteNewsOnSuccess i c → f = false)) ∧
    (pdfListKeyFilter k = true →
      ((k, f) ∈ createPdfOnSuccess c → f = false) ∧
      ((k, f) ∈ updatePdfOnSuccess i c → f = false) ∧
      ((k, f) ∈ deletePdfOnSuccess i c → f = false) ∧
      ((k, f) ∈ updatePdfStatusOnSuccess c → f = false)) := by
  refine ⟨newsListKeyHasListFilter nparams, pdfListKeyHasListFilter pparams,
    fun hk => ⟨?_, ?_, ?_⟩, fun hk => ⟨?_, ?_, ?_, ?_⟩⟩ <;>
    intro hmem <;>
    exact memInvalidateWhereTrue _ _ _ _ hmem hk

/-- C2 witness: a cached page-2 news list entry is stale after a create,
by `mutationInvalidatesAllListKeys`. -/
theorem mutationInvalidatesAllListKeysWitness :
    newsListKeyFilter "news-list-page=2" = true ∧
    ("news-list-page=2", false)
      ∈ createNewsOnSuccess
          [("news-list-page=2", true), ("news-single-7", true)] ∧
    (false : Bool) = false :=
  ⟨by decide, by decide,
    ((mutationInvalidatesAllListKeys
        [("news-list-page=2", true), ("news-single-7", true)]
        "news-list-page=2" "7" false none none).2.2.1 (by decide)).1 (by decide)⟩

/-! ## Claim C6 — single-item key invalidation and frame -/

/-- C6: update and delete invalidate the single-item key of the affected id
(in addition to the list keys), while every single-item entry of any other
id is untouched; create (and the pdf status toggle) touches no single-item
key at all. -/
theorem singleItemInvalidationFrame (c : Cache) (i j : String) (f : Bool)
    (hij : i ≠ j) :
    (("news-single-" ++ i, f) ∈ updateNewsOnSuccess i c → f = false) ∧
    (("news-single-" ++ i, f) ∈ deleteNewsOnSuccess i c → f = false) ∧
    (("pdf-single-" ++ i, f) ∈ updatePdfOnSuccess i c → f = false) ∧
    (("pdf-single-" ++ i, f) ∈ deletePdfOnSuccess i c → f = false) ∧
    (("news-single-" ++ j, f) ∈ updateNewsOnSuccess i c
      ↔ ("news-single-" ++ j, f) ∈ c) ∧
    (("news-single-" ++ j, f) ∈ deleteNewsOnSuccess i c
      ↔ ("news-single-" ++ j, f) ∈ c) ∧
    (("pdf-single-" ++ j, f) ∈ updatePdfOnSuccess i c
      ↔ ("pdf-single-" ++ j, f) ∈ c) ∧
    (("pdf-single-" ++ j, f) ∈ deletePdfOnSuccess i c
      ↔ ("pdf-single-" ++ j, f) ∈ c) ∧
    (("news-single-" ++ j, f) ∈ createNewsOnSuccess c
      ↔ ("news-single-" ++ j, f) ∈ c) ∧
    (("pdf-single-" ++ j, f) ∈ createPdfOnSuccess c
      ↔ ("pdf-single-" ++ j, f) ∈ c) ∧
    (("pdf-single-" ++ j, f) ∈ updatePdfStatusOnSuccess c
      ↔ ("pdf-single-" ++ j, f) ∈ c) := by
  have hneNews : "news-single-" ++ j ≠ "news-single-" ++ i := by
    intro h
    exact hij (strAppendLeftCancel _ _ _ h).symm
  have hnePdf : "pdf-single-" ++ j ≠ "pdf-single-" ++ i := by
    intro h
    exact hij (strAppendLeftCancel _ _ _ h).symm
  refine ⟨fun hmem => memSingleAfterMutation _ _ _ _ hmem,
    fun hmem => memSingleAfterMutation _ _ _ _ hmem,
    fun hmem => memSingleAfterMutation _ _ _ _ hmem,
    fun hmem => memSingleAfterMutation _ _ _ _ hmem, ?_, ?_, ?_, ?_, ?_, ?_, ?_⟩
  · rw [updateNewsOnSuccess,
      memInvalidateWhereOfFilterFalse _ _ _ _ (newsSingleKeyNotListKey j)]
    exact memInvalidateKeyOfNe _ _ _ _ hneNews
  · rw [deleteNewsOnSuccess,
      memInvalidateWhereOfFilterFalse _ _ _ _ (newsSingleKeyNotListKey j)]
    exact memInvalidateKeyOfNe _ _ _ _ hneNews
  · rw [updatePdfOnSuccess,
      memInvalidateWhereOfFilterFalse _ _ _ _ (pdfSingleKeyNotListKey j)]
    exact memInvalidateKeyOfNe _ _ _ _ hnePdf
  · rw [deletePdfOnSuccess,
      memInvalidateWhereOfFilterFalse _ _ _ _ (pdfSingleKeyNotListKey j)]
    exact memInvalidateKeyOfNe _ _ _ _ hnePdf
  · exact memInvalidateWhereOfFilterFalse _ _ _ _ (newsSingleKeyNotListKey j)
  · exact memInvalidateWhereOfFilterFalse _ _ _ _ (pdfSingleKeyNotListKey j)
  · exact memInvalidateWhereOfFilterFalse _ _ _ _ (pdfSingleKeyNotListKey j)

/-- C6 witness: after updating id 42, the id-42 single entry is stale and
the id-7 single entry survives, by `singleItemInvalidationFrame`. -/
theorem singleItemInvalidationFrameWitness :
    ("42" : String) ≠ "7" ∧
    ("news-single-" ++ "42", false)
      ∈ updateNewsOnSuccess "42"
          [("news-single-42", true), ("news-single-7", true)] ∧
    ("news-single-" ++ "7", true)
      ∈ updateNewsOnSuccess "42"
          [("news-single-42", true), ("news-single-7", true)] :=
  ⟨by decide, by decide,
    (singleItemInvalidationFrame
        [("news-single-42", true), ("news-single-7", true)]
        "42" "7" true (by decide)).2.2.2.2.1.mpr (by decide)⟩

/-! ## More storage lemmas (for logout / login) -/

theorem storeGetFilterNone (es : List (String × String)) (k : String)
    (q : String × String → Bool) (h : storeGet es k = none) :
    storeGet (es.filter q) k = none := by
  simp only [storeGet, Option.map_eq_none'] at h ⊢
  rw [List.find?_eq_none] at h ⊢
  intro e he
  exact h e (List.mem_filter.mp he).1

theorem findFilterOfImp (p q : α → Bool) (l : List α)
    (h : ∀ e, p e = true → q e = true) : (l.filter q).find? p = l.find? p := by
  induction l with
  | nil => rfl
  | cons a as ih =>
    by_cases hq : q a = true
    · by_cases hp : p a = true
      · rw [List.filter_cons_of_pos hq, List.find?_cons_of_pos _ hp,
          List.find?_cons_of_pos _ hp]
      · rw [Bool.not_eq_true] at hp
        rw [List.filter_cons_of_pos hq, List.find?_cons_of_neg _ (by simp [hp]),
          List.find?_cons_of_neg _ (by simp [hp]), ih]
    · rw [Bool.not_eq_true] at hq
      have hp : p a = false := by
        by_cases hpa : p a = true
        · rw [h a hpa] at hq
          cases hq
        · exact Bool.not_eq_true _ |>.mp hpa
      rw [List.filter_cons_of_neg (by simp [hq]),
        List.find?_cons_of_neg _ (by simp [hp]), ih]

theorem storeGetSetOther (es : List (String × String)) (k k' v : String)
    (hne : k' ≠ k) : storeGet (storeSet es k v) k' = storeGet es k' := by
  simp only [storeGet, storeSet]
  rw [List.find?_cons_of_neg]
  · rw [findFilterOfImp]
    intro e hpe
    have he : e.1 = k' := eq_of_beq hpe
    simp [he, hne]
  · simp
    intro hkk
    exact hne hkk.symm

/-! ## Claim C8 — logout always clears local session -/

/-- C8: whatever the backend logout call does (resolve or throw), the
logout operation clears the token from both storage locations, drops the
in-memory and stored user, and navigates to the login path; the network
failure is swallowed (`logoutCtx` is a total function into a plain state,
with no error outcome). -/
theorem logoutAlwaysClears (netFails : Bool) (w : World) (hb : w.browser = true) :
    getToken (logoutCtx netFails w) = none ∧
    jarGet (logoutCtx netFails w).cookies AUTH_COOKIE_NAME = none ∧
    (logoutCtx netFails w).user = none ∧
    storeGet (logoutCtx netFails w).localStorage USER_KEY = none ∧
    (logoutCtx netFails w).route = LOGIN_PATH := by
  have e1 : logoutCtx netFails w =
      { w with
        localStorage :=
          storeRemove (storeRemove (storeRemove w.localStorage TOKEN_KEY)
            TOKEN_KEY) USER_KEY
        cookies := jarClear (jarClear w.cookies AUTH_COOKIE_NAME) AUTH_COOKIE_NAME
        user := none
        route := "/login" } := by
    simp [logoutCtx, apiLogout, removeToken, setStoredUser, hb]
  rw [e1]
  refine ⟨?_, ?_, rfl, ?_, rfl⟩
  · rw [getToken, if_pos hb]
    exact storeGetFilterNone _ _ _ (storeGetRemove _ _)
  · exact jarGetClear _ _
  · exact storeGetRemove _ _

/-- C8 witness: logout with a failing backend call, from a logged-in world,
by `logoutAlwaysClears`. -/
theorem logoutAlwaysClearsWitness :
    getToken (logoutCtx true
      (World.mk true [("admin_auth_token", "tok")]
        [("admin_auth_token", "tok", 86400)]
        (some (Admin.mk 1 "A" "B" "a@b" none)) "/news")) = none ∧
    (logoutCtx true
      (World.mk true [("admin_auth_token", "tok")]
        [("admin_auth_token", "tok", 86400)]
        (some (Admin.mk 1 "A" "B" "a@b" none)) "/news")).route = LOGIN_PATH :=
  ⟨(logoutAlwaysClears true
      (World.mk true [("admin_auth_token", "tok")]
        [("admin_auth_token", "tok", 86400)]
        (some (Admin.mk 1 "A" "B" "a@b" none)) "/news") rfl).1,
    (logoutAlwaysClears true
      (World.mk true [("admin_auth_token", "tok")]
        [("admin_auth_token", "tok", 86400)]
        (some (Admin.mk 1 "A" "B" "a@b" none)) "/news") rfl).2.2.2.2⟩

/-! ## Claim C3 — login validation and failure frame -/

/-- C3 counterexample. A transport-successful response carrying a token but
no admin object is rejected by the context's validation (an error is
returned to the caller), yet the transport layer has *already* persisted the
token to the durable store and cookie — so the claim that any failure
leaves the whole authentication state unchanged is false. -/
theorem loginFailureStateCounterexample :
    ((loginCtx
        (LoginResponse.mk true (some (LoginRespData.mk none (some "tok") none)))
        none none (World.mk true [] [] none "/login")).2).isSome = true ∧
    getToken (loginCtx
        (LoginResponse.mk true (some (LoginRespData.mk none (some "tok") none)))
        none none (World.mk true [] [] none "/login")).1 = some "tok" ∧
    jarGet (loginCtx
        (LoginResponse.mk true (some (LoginRespData.mk none (some "tok") none)))
        none none (World.mk true [] [] none "/login")).1.cookies
        AUTH_COOKIE_NAME = some ("tok", SESSION_COOKIE_MAX_AGE) ∧
    getToken (World.mk true [] [] none "/login") = none :=
  ⟨by decide, by decide, by decide, by decide⟩

/-- C3 (amended): login succeeds exactly when the response has the success
flag, a (nonempty) token and an admin object — absence of any is a failure
even on a 2xx transport. On failure the in-memory user, the stored user and
the route are unchanged and the error propagates; the token store and
cookie are also unchanged *except* when the response was successful and
carried a token without an admin object, in which case the transport layer
has already persisted the token. -/
theorem loginValidationAndFailureFrame (resp : LoginResponse)
    (remember : Option Bool) (redirectTo : Option String) (w : World)
    (hb : w.browser = true) :
    ((loginCtx resp remember redirectTo w).2 = none ↔ loginValid resp = true) ∧
    ((loginCtx resp remember redirectTo w).2.isSome = true →
      (loginCtx resp remember redirectTo w).1.user = w.user ∧
      storeGet (loginCtx resp remember redirectTo w).1.localStorage USER_KEY
        = storeGet w.localStorage USER_KEY ∧
      (loginCtx resp remember redirectTo w).1.route = w.route ∧
      (tokenStoredByApi resp = false →
        (loginCtx resp remember redirectTo w).1 = w) ∧
      (tokenStoredByApi resp = true →
        (loginCtx resp remember redirectTo w).1
          = setToken w ((respToken resp).getD "") remember)) := by
  by_cases hv : loginValid resp = true
  · have hadmin : (respAdmin resp).isSome = true := by
      have hv' := hv
      rw [loginValid, Bool.and_eq_true] at hv'
      exact hv'.2
    rcases Option.isSome_iff_exists.mp hadmin with ⟨a, ha⟩
    have hnone : (loginCtx resp remember redirectTo w).2 = none := by
      simp [loginCtx, hv, ha]
    constructor
    · rw [hnone]
      simp [hv]
    · intro hsome
      rw [hnone] at hsome
      cases hsome
  · rw [Bool.not_eq_true] at hv
    have hsnd : (loginCtx resp remember redirectTo w).2
        = some (loginErrMsg resp) := by
      simp [loginCtx, hv]
    have hfst : (loginCtx resp remember redirectTo w).1
        = apiLogin resp remember w := by
      simp [loginCtx, hv]
    constructor
    · rw [hsnd]
      simp [hv]
    · intro _
      rw [hfst]
      by_cases hapi : tokenStoredByApi resp = true
      · rw [tokenStoredByApi] at hapi
        have happ : apiLogin resp remember w
            = setToken w ((respToken resp).getD "") remember := by
          rw [apiLogin, if_pos hapi]
        rw [happ]
        refine ⟨by simp [setToken, hb], ?_, by simp [setToken, hb], ?_, ?_⟩
        · simp only [setToken, hb, if_pos]
          exact storeGetSetOther _ _ _ _ (by decide)
        · intro hcon
          rw [tokenStoredByApi, hapi] at hcon
          cases hcon
        · intro _
          rfl
      · rw [Bool.not_eq_true, tokenStoredByApi] at hapi
        have happ : apiLogin resp remember w = w := by
          rw [apiLogin, if_neg]
          simp [hapi]
        rw [happ]
        exact ⟨rfl, rfl, rfl, fun _ => rfl,
          fun hcon => by rw [tokenStoredByApi, hapi] at hcon; cases hcon⟩

/-- C3 witness: a response with `success: false` fails and leaves the world
untouched, by `loginValidationAndFailureFrame`. -/
theorem loginValidationAndFailureFrameWitness :
    (World.mk true [] [] none "/login").browser = true ∧
    (loginCtx (LoginResponse.mk false none) none none
        (World.mk true [] [] none "/login")).2.isSome = true ∧
    tokenStoredByApi (LoginResponse.mk false none) = false ∧
    (loginCtx (LoginResponse.mk false none) none none
        (World.mk true [] [] none "/login")).1
      = World.mk true [] [] none "/login" :=
  ⟨rfl, by decide, by decide,
    ((loginValidationAndFailureFrame (LoginResponse.mk false none) none none
        (World.mk true [] [] none "/login") rfl).2 (by decide)).2.2.2.1
      (by decide)⟩

/-! ## Claim C7 — API client response handling -/

/-- Parser used by the C7 counterexample: the body `{"message":""}`. -/
def parseC7 : String → Option Json :=
  fun s => if s = "m" then some (Json.obj [("message", Json.str "")]) else none

/-- C7 counterexample. On a 500 whose body parses to an object with a
`message` field holding `""`, the code does *not* carry the extracted
message (`""`): the JS truthy chain falls through to the generic text even
though a message field exists, contradicting the claim that the generic
text is used only "when no message field exists". -/
theorem apiErrMessageCounterexample :
    apiFetchResult 500 "m" parseC7
      = Except.error ⟨Json.str "Request failed with status 500", 500,
          some (Json.obj [("message", Json.str "")])⟩ ∧
    jlookup [("message", Json.str "")] "message" = some (Json.str "") ∧
    ("Request failed with status 500" : String) ≠ "" :=
  ⟨rfl, rfl, by decide⟩

/-- C7 (amended): the request function returns the parsed JSON body on 2xx
(an empty, unparseable or JSON-`null` body degrading — via `data ?? {}` —
to the empty object, never a thrown parse error), and on every non-2xx
raises a typed `ApiError` carrying the HTTP status, the raw parsed body,
and the message taken from the body's `message` field when that field
exists *with a truthy (non-empty) value*, falling back to the generic
`Request failed with status N` text when the field is missing or falsy. -/
theorem apiFetchErrorShape (status : Nat) (text : String)
    (parse : String → Option Json) :
    (resOk status = true →
      apiFetchResult status text parse
        = Except.ok (nullishCoalesceObj (parseJsonSafe parse text))) ∧
    (resOk status = true → parseJsonSafe parse text = none →
      apiFetchResult status text parse = Except.ok (Json.obj [])) ∧
    (resOk status = true → parseJsonSafe parse text = some Json.null →
      apiFetchResult status text parse = Except.ok (Json.obj [])) ∧
    (resOk status = false →
      apiFetchResult status text parse
        = Except.error ⟨apiErrMessage (parseJsonSafe parse text) status,
            status, parseJsonSafe parse text⟩) ∧
    (text = "" → parseJsonSafe parse text = none) ∧
    (parse text = none → parseJsonSafe parse text = none) ∧
    (∀ fields v, parseJsonSafe parse text = some (Json.obj fields) →
      jlookup fields "message" = some v → jtruthy v = true →
      apiErrMessage (parseJsonSafe parse text) status = v) ∧
    (∀ fields, parseJsonSafe parse text = some (Json.obj fields) →
      jlookup fields "message" = none →
      apiErrMessage (parseJsonSafe parse text) status
        = Json.str ("Request failed with status " ++ toString status)) := by
  refine ⟨?_, ?_, ?_, ?_, ?_, ?_, ?_, ?_⟩
  · intro hok
    simp [apiFetchResult, hok]
  · intro hok hnone
    simp [apiFetchResult, hok, hnone, nullishCoalesceObj]
  · intro hok hnull
    simp [apiFetchResult, hok, hnull, nullishCoalesceObj]
  · intro hok
    simp [apiFetchResult, hok]
  · intro ht
    simp [parseJsonSafe, ht]
  · intro hp
    by_cases ht : text = ""
    · simp [parseJsonSafe, ht]
    · simp [parseJsonSafe, ht, hp]
  · intro fields v hparsed hfield htruthy
    rw [hparsed, apiErrMessage]
    simp [hfield, htruthy]
  · intro fields hparsed hfield
    rw [hparsed, apiErrMessage]
    simp [hfield]

/-- C7 witness: a 404 with an empty body yields the generic typed error; a
2xx with an unparseable body and a 2xx whose body is the JSON literal
`null` both yield the empty object, by `apiFetchErrorShape`. -/
theorem apiFetchErrorShapeWitness :
    resOk 404 = false ∧
    apiFetchResult 404 "" (fun s => if s = "" then none else none)
      = Except.error ⟨Json.str "Request failed with status 404", 404, none⟩ ∧
    resOk 200 = true ∧
    apiFetchResult 200 "not json" (fun s => if s = "" then none else none)
      = Except.ok (Json.obj []) ∧
    apiFetchResult 200 "null"
        (fun s => if s = "null" then some Json.null else none)
      = Except.ok (Json.obj []) :=
  ⟨by decide,
    (apiFetchErrorShape 404 ""
        (fun s => if s = "" then none else none)).2.2.2.1 (by decide),
    by decide,
    (apiFetchErrorShape 200 "not json"
        (fun s => if s = "" then none else none)).2.1 (by decide)
      (by simp [parseJsonSafe]),
    (apiFetchErrorShape 200 "null"
        (fun s => if s = "null" then some Json.null else none)).2.2.1
      (by decide) (by simp [parseJsonSafe])⟩
